import Mathlib

/-!
Shallow embedding of `src/app.py` (the "Architect Guru" Streamlit wizard).

The embedding models:
* Python JSON values and `json.loads` (the strict JSON grammar the stdlib
  parser accepts, with numbers kept as integers or raw float lexemes);
* the Python operations the code uses on parsed values: `in` (membership),
  subscripting, `.strip()`, dict insertion keyed by `==`;
* the three `ArchitectAgent` generation methods, instrumented with the list
  of message sequences sent to the completion endpoint, so that call counts
  and call contents are provable;
* the Streamlit session-state machine of `main()`: one transition per user
  event (reset, back, submit-project, submit-answers), where an uncaught
  Python exception aborts the run but keeps all session mutations already
  performed, exactly as Streamlit does.
-/

namespace ArchitectApp

/-- A Python value produced by `json.loads`: null, bool, int, float (kept as
its raw lexeme), string, list, dict (association list; `json.loads` keeps the
last duplicate key, so field lists are duplicate-free by construction). -/
inductive JValue where
  | null
  | bool (b : Bool)
  | num (n : Int)
  | flt (raw : String)
  | str (s : String)
  | arr (items : List JValue)
  | obj (fields : List (String × JValue))

mutual
/-- Python `==` on JSON values (structural equality; cross-type comparison is
`False`, matching Python for the types appearing here). -/
def jbeq : JValue → JValue → Bool
  | .null, .null => true
  | .bool a, .bool b => a == b
  | .num a, .num b => a == b
  | .flt a, .flt b => a == b
  | .str a, .str b => a == b
  | .arr xs, .arr ys => jbeqL xs ys
  | .obj xs, .obj ys => jbeqO xs ys
  | _, _ => false

def jbeqL : List JValue → List JValue → Bool
  | [], [] => true
  | x :: xs, y :: ys => jbeq x y && jbeqL xs ys
  | _, _ => false

def jbeqO : List (String × JValue) → List (String × JValue) → Bool
  | [], [] => true
  | (k1, v1) :: xs, (k2, v2) :: ys => k1 == k2 && jbeq v1 v2 && jbeqO xs ys
  | _, _ => false
end

/-- JSON whitespace (the four characters Python's `json` module skips). -/
def isJsonWs (ch : Char) : Bool :=
  ch = ' ' || ch = '\t' || ch = '\n' || ch = '\r'

/-- Drop leading JSON whitespace. -/
def skipWs : List Char → List Char
  | [] => []
  | ch :: rest => if isJsonWs ch then skipWs rest else ch :: rest

/-- Consume an expected literal suffix (e.g. `ull` after `n`). -/
def expectLit : List Char → List Char → Option (List Char)
  | [], cs => some cs
  | e :: es, ch :: cs => if ch = e then expectLit es cs else none
  | _ :: _, [] => none

def hexVal (ch : Char) : Option Nat :=
  if '0' ≤ ch ∧ ch ≤ '9' then some (ch.toNat - '0'.toNat)
  else if 'a' ≤ ch ∧ ch ≤ 'f' then some (ch.toNat - 'a'.toNat + 10)
  else if 'A' ≤ ch ∧ ch ≤ 'F' then some (ch.toNat - 'A'.toNat + 10)
  else none

/-- Body of a JSON string after the opening quote: strict mode (unescaped
control characters are rejected), with the standard escapes. -/
def parseStrBody : List Char → List Char → Option (String × List Char)
  | [], _ => none
  | '"' :: rest, acc => some (String.mk acc.reverse, rest)
  | '\\' :: e :: rest, acc =>
    match e with
    | '"' => parseStrBody rest ('"' :: acc)
    | '\\' => parseStrBody rest ('\\' :: acc)
    | '/' => parseStrBody rest ('/' :: acc)
    | 'b' => parseStrBody rest ('\x08' :: acc)
    | 'f' => parseStrBody rest ('\x0c' :: acc)
    | 'n' => parseStrBody rest ('\n' :: acc)
    | 'r' => parseStrBody rest ('\r' :: acc)
    | 't' => parseStrBody rest ('\t' :: acc)
    | 'u' =>
      match rest with
      | a :: b :: c :: d :: rest2 =>
        match hexVal a, hexVal b, hexVal c, hexVal d with
        | some ha, some hb, some hc, some hd =>
          parseStrBody rest2 (Char.ofNat (((ha * 16 + hb) * 16 + hc) * 16 + hd) :: acc)
        | _, _, _, _ => none
      | _ => none
    | _ => none
  | ch :: rest, acc =>
    if ch.toNat < 32 then none else parseStrBody rest (ch :: acc)

def isDigit (ch : Char) : Bool := '0' ≤ ch && ch ≤ '9'

/-- Take a maximal run of decimal digits. -/
def takeDigits : List Char → List Char × List Char
  | [] => ([], [])
  | ch :: rest =>
    if isDigit ch then
      let (ds, r) := takeDigits rest
      (ch :: ds, r)
    else ([], ch :: rest)

def digitsToNat (ds : List Char) : Nat :=
  ds.foldl (fun acc ch => acc * 10 + (ch.toNat - '0'.toNat)) 0

/-- JSON integer part after an optional sign: `0` or a nonzero digit followed
by more digits (leading zeros rejected, as in Python's `json`). -/
def parseIntPart : List Char → Option (List Char × List Char)
  | [] => none
  | ch :: rest =>
    if ch = '0' then some ([ch], rest)
    else if isDigit ch then
      let (ds, r) := takeDigits rest
      some (ch :: ds, r)
    else none

/-- Fraction part `.ddd` of a JSON number, if present and well-formed. -/
def parseFrac : List Char → Option (List Char × List Char)
  | '.' :: fr =>
    match takeDigits fr with
    | ([], _) => none
    | (ds, r) => some ('.' :: ds, r)
  | _ => none

/-- Exponent part `[eE][+-]?ddd` of a JSON number, if present and well-formed. -/
def parseExpPart : List Char → Option (List Char × List Char)
  | e :: er =>
    if e = 'e' ∨ e = 'E' then
      match er with
      | s :: sr =>
        if s = '+' ∨ s = '-' then
          match takeDigits sr with
          | ([], _) => none
          | (ds, r) => some (e :: s :: ds, r)
        else
          match takeDigits er with
          | ([], _) => none
          | (ds, r) => some (e :: ds, r)
      | [] => none
    else none
  | [] => none

/-- A JSON number after the optional leading minus sign.  `neg` records the
sign, `sgn` the consumed sign characters (for the raw float lexeme).  A
malformed fraction or exponent is left unconsumed; the trailing garbage then
fails at the enclosing level, which is observably the same error behavior. -/
def parseNumTail (neg : Bool) (sgn : List Char) (cs : List Char) :
    Option (JValue × List Char) :=
  match parseIntPart cs with
  | none => none
  | some (ip, r1) =>
    let fr := (parseFrac r1).getD ([], r1)
    let ex := (parseExpPart fr.2).getD ([], fr.2)
    if fr.1.isEmpty ∧ ex.1.isEmpty then
      let n : Int := Int.ofNat (digitsToNat ip)
      some (.num (if neg then -n else n), r1)
    else
      some (.flt (String.mk (sgn ++ ip ++ fr.1 ++ ex.1)), ex.2)

mutual
/-- One JSON value (fuel-based recursion; `json_loads` supplies ample fuel). -/
def parseJ : Nat → List Char → Option (JValue × List Char)
  | 0, _ => none
  | Nat.succ fuel, cs =>
    match skipWs cs with
    | [] => none
    | ch :: rest =>
      if ch = 'n' then
        match expectLit ['u', 'l', 'l'] rest with
        | some r => some (.null, r)
        | none => none
      else if ch = 't' then
        match expectLit ['r', 'u', 'e'] rest with
        | some r => some (.bool true, r)
        | none => none
      else if ch = 'f' then
        match expectLit ['a', 'l', 's', 'e'] rest with
        | some r => some (.bool false, r)
        | none => none
      else if ch = 'N' then
        match expectLit ['a', 'N'] rest with
        | some r => some (.flt "NaN", r)
        | none => none
      else if ch = 'I' then
        match expectLit ['n', 'f', 'i', 'n', 'i', 't', 'y'] rest with
        | some r => some (.flt "Infinity", r)
        | none => none
      else if ch = '"' then
        match parseStrBody rest [] with
        | some (s, r) => some (.str s, r)
        | none => none
      else if ch = '-' then
        match rest with
        | 'I' :: r0 =>
          match expectLit ['n', 'f', 'i', 'n', 'i', 't', 'y'] r0 with
          | some r => some (.flt "-Infinity", r)
          | none => none
        | _ => parseNumTail true ['-'] rest
      else if isDigit ch then
        parseNumTail false [] (ch :: rest)
      else if ch = '[' then
        match skipWs rest with
        | ']' :: r2 => some (.arr [], r2)
        | r1 => parseItems fuel r1 []
      else if ch = '{' then
        match skipWs rest with
        | '}' :: r2 => some (.obj [], r2)
        | r1 => parseFields fuel r1 []
      else none

def parseItems (fuel : Nat) (cs : List Char) (acc : List JValue) :
    Option (JValue × List Char) :=
  match fuel with
  | 0 => none
  | Nat.succ fuel =>
    match parseJ fuel cs with
    | none => none
    | some (v, r) =>
      match skipWs r with
      | ',' :: r2 => parseItems fuel r2 (acc ++ [v])
      | ']' :: r2 => some (.arr (acc ++ [v]), r2)
      | _ => none

def parseFields (fuel : Nat) (cs : List Char) (acc : List (String × JValue)) :
    Option (JValue × List Char) :=
  match fuel with
  | 0 => none
  | Nat.succ fuel =>
    match skipWs cs with
    | '"' :: r0 =>
      match parseStrBody r0 [] with
      | none => none
      | some (k, r1) =>
        match skipWs r1 with
        | ':' :: r2 =>
          match parseJ fuel r2 with
          | none => none
          | some (v, r3) =>
            let acc2 :=
              if acc.any (fun p => p.1 == k) then
                acc.map (fun p => if p.1 == k then (p.1, v) else p)
              else acc ++ [(k, v)]
            match skipWs r3 with
            | ',' :: r4 => parseFields fuel r4 acc2
            | '}' :: r4 => some (.obj acc2, r4)
            | _ => none
        | _ => none
    | _ => none
end

/-- Embedding of Python `json.loads`: parse one document, require that only
whitespace remains. -/
def json_loads (s : String) : Option JValue :=
  match parseJ (2 * s.length + 2) s.data with
  | some (v, r) => if (skipWs r).isEmpty then some v else none
  | none => none

/-- Characters removed by Python `str.strip()`: the characters for which
`str.isspace()` holds — ASCII whitespace, the information separators,
next line, and the Unicode space separators plus the two line/paragraph
separators. -/
def isPyWs (ch : Char) : Bool :=
  ch = ' ' || ch = '\t' || ch = '\n' || ch = '\r' || ch = '\x0b' || ch = '\x0c' ||
  ch = '\x1c' || ch = '\x1d' || ch = '\x1e' || ch = '\x1f' ||
  ch = '\u0085' || ch.toNat = 0xa0 || ch.toNat = 0x1680 ||
  (0x2000 ≤ ch.toNat && ch.toNat ≤ 0x200a) ||
  ch.toNat = 0x2028 || ch.toNat = 0x2029 || ch.toNat = 0x202f ||
  ch.toNat = 0x205f || ch.toNat = 0x3000

/-- Embedding of Python `str.strip()`. -/
def pyStrip (s : String) : String :=
  String.mk (((s.data.dropWhile isPyWs).reverse.dropWhile isPyWs).reverse)

/-- A chat message, as the dictionaries `{"role": ..., "content": ...}` the
code builds. -/
structure Message where
  role : String
  content : String
deriving DecidableEq

/-- A failure of the completion endpoint itself (network, quota, auth):
raised inside `client.chat.completions.create` and never caught by the app. -/
structure UpstreamError where
  msg : String
deriving DecidableEq

/-- The injected completion endpoint: maps the index of the call within the
current operation and the message list sent to either a reply text or an
upstream failure.  Models `client.chat.completions.create`. -/
abbrev Completion := Nat → List Message → Except UpstreamError String

/-- The Python exceptions relevant to this program.  `json.loads` failures
are `jsonDecodeError`; the validation loop raises `keyError` / `valueError`;
Python itself raises `typeError` (bad `in` / subscript) and
`attributeError` (`.strip()` on a non-string). -/
inductive PyError where
  | upstream (e : UpstreamError)
  | jsonDecodeError
  | keyError (m : String)
  | valueError (m : String)
  | typeError (m : String)
  | attributeError (m : String)
deriving DecidableEq

def listStartsWith : List Char → List Char → Bool
  | [], _ => true
  | _ :: _, [] => false
  | a :: as, b :: bs => a == b && listStartsWith as bs

def listHasInfix (needle : List Char) : List Char → Bool
  | [] => needle.isEmpty
  | b :: bs => listStartsWith needle (b :: bs) || listHasInfix needle bs

/-- `needle in hay` for Python strings: substring test. -/
def strContainsSub (hay needle : String) : Bool :=
  listHasInfix needle.data hay.data

/-- Python `k in v` for a string key `k`: dict → key test, list → element
equality test, str → substring test; other values raise `TypeError`. -/
def py_contains (v : JValue) (k : String) : Except PyError Bool :=
  match v with
  | .obj fields => .ok (fields.any (fun f => f.1 == k))
  | .arr items => .ok (items.any (fun x => jbeq x (.str k)))
  | .str s => .ok (strContainsSub s k)
  | _ => .error (.typeError "argument is not iterable")

/-- Python `v[k]` for a string key `k`: dict lookup (KeyError when absent);
list and str subscripts with a string index raise `TypeError`, as does
subscripting any other value. -/
def py_getitem (v : JValue) (k : String) : Except PyError JValue :=
  match v with
  | .obj fields =>
    match fields.find? (fun f => f.1 == k) with
    | some f => .ok f.2
    | none => .error (.keyError k)
  | .arr _ => .error (.typeError "list indices must be integers")
  | .str _ => .error (.typeError "string indices must be integers")
  | _ => .error (.typeError "object is not subscriptable")

/-- Python `not v.strip()`: for a string, whether the stripped text is empty;
any non-string raises `AttributeError` at `.strip`. -/
def py_strip_falsy (v : JValue) : Except PyError Bool :=
  match v with
  | .str s => .ok (pyStrip s == "")
  | _ => .error (.attributeError "object has no attribute strip")

/-- The `AnswerMap`: the Python dict built in the question forms, keyed by
the question value exactly as iterated from the stored question set (a
string when the model answered with a JSON array of strings). -/
abbrev AnswerMap := List (JValue × String)

/-- Structured project facts, as the `project_info` session dict. -/
structure ProjectInfo where
  description : String
  main_challenge : String
  challenges : List String
deriving DecidableEq

def joinLines (ls : List String) : String := String.intercalate "\n" ls

def hexDigit (n : Nat) : Char :=
  if n < 10 then Char.ofNat ('0'.toNat + n) else Char.ofNat ('a'.toNat + n - 10)

def hex4 (n : Nat) : String :=
  String.mk [hexDigit (n / 4096 % 16), hexDigit (n / 256 % 16),
             hexDigit (n / 16 % 16), hexDigit (n % 16)]

/-- One character under `json.dumps` default settings (`ensure_ascii=True`:
non-ASCII goes to `\uXXXX`; characters beyond the BMP are approximated with a
single escape rather than a surrogate pair, which no claim observes). -/
def jsonEscapeChar (ch : Char) : String :=
  if ch = '"' then "\\\""
  else if ch = '\\' then "\\\\"
  else if ch = '\n' then "\\n"
  else if ch = '\t' then "\\t"
  else if ch = '\r' then "\\r"
  else if ch = '\x08' then "\\b"
  else if ch = '\x0c' then "\\f"
  else if ch.toNat < 32 ∨ ch.toNat > 126 then "\\u" ++ hex4 ch.toNat
  else String.singleton ch

def json_dumps_str (s : String) : String :=
  "\"" ++ String.join (s.data.map jsonEscapeChar) ++ "\""

/-- `json.dumps` of a list of strings nested at depth 1 with `indent=2`. -/
def json_dumps_str_list (xs : List String) : String :=
  match xs with
  | [] => "[]"
  | _ => "[\n" ++ String.intercalate ",\n" (xs.map (fun x => "    " ++ json_dumps_str x)) ++
         "\n  ]"

/-- `json.dumps(project_info, indent=2)` for the session's project dict;
the dict is empty (`{}`) until the first project submission. -/
def json_dumps_project_info : Option ProjectInfo → String
  | none => "\x7b\x7d"
  | some info =>
    "\x7b\n  \"description\": " ++ json_dumps_str info.description ++
    ",\n  \"main_challenge\": " ++ json_dumps_str info.main_challenge ++
    ",\n  \"challenges\": " ++ json_dumps_str_list info.challenges ++ "\n\x7d"

/-- A dict key under `json.dumps` (string keys quoted; the int/bool/null
coercions Python applies; list/dict keys cannot occur, dicts reject them). -/
def json_dumps_key : JValue → String
  | .str s => json_dumps_str s
  | .num n => "\"" ++ toString n ++ "\""
  | .bool b => "\"" ++ cond b "true" "false" ++ "\""
  | .null => "\"null\""
  | .flt r => "\"" ++ r ++ "\""
  | _ => "\"<unhashable>\""

/-- `json.dumps(answers, indent=2)` for an answer dict. -/
def json_dumps_answers : AnswerMap → String
  | [] => "\x7b\x7d"
  | entries =>
    "\x7b\n" ++
    String.intercalate ",\n"
      (entries.map (fun e => "  " ++ json_dumps_key e.1 ++ ": " ++ json_dumps_str e.2)) ++
    "\n\x7d"

/-- `ArchitectAgent._get_completion`: one blocking call to the endpoint. -/
def _get_completion (c : Completion) (idx : Nat) (messages : List Message) :
    Except UpstreamError String :=
  c idx messages

def scope_system : String :=
  "You are an expert software architect focusing on scope definition."

/-- The prompt of `generate_scope_questions` (the f-string at app.py:39-67,
with its literal indentation). -/
def scope_prompt (project_description main_challenge : String)
    (challenges : List String) : String :=
  joinLines [
    "",
    "        As an expert software architect, analyze this initial project information and generate questions to clarify the scope and constraints.",
    "        ",
    "        Project Description: " ++ project_description,
    "        Main Challenge: " ++ main_challenge,
    "        Additional Challenges: " ++ String.intercalate ", " challenges,
    "        ",
    "        Generate 6-8 essential questions focusing on:",
    "",
    "        1. Business Context & Scope:",
    "           - Business objectives and success metrics",
    "           - Project boundaries and limitations",
    "           - Key stakeholders and their expectations",
    "           - Timeline and budget constraints",
    "",
    "        2. Technical Boundaries:",
    "           - Current system limitations",
    "           - Integration requirements",
    "           - Non-functional requirements",
    "           - Technical constraints",
    "",
    "        IMPORTANT: ",
    "        - Questions should help define clear project boundaries",
    "        - Focus on understanding limitations and constraints",
    "        - Aim to uncover potential roadblocks early",
    "        - Keep questions focused and specific",
    "        ",
    "        Return ONLY a JSON array of strings, with each string being a question.",
    "        "]

def scope_messages (project_description main_challenge : String)
    (challenges : List String) : List Message :=
  [⟨"system", scope_system⟩,
   ⟨"user", scope_prompt project_description main_challenge challenges⟩]

def solution_system : String :=
  "You are an expert software architect focusing on solution exploration."

/-- The prompt of `generate_solution_questions` (app.py:84-110). -/
def solution_prompt (project_info : Option ProjectInfo) (scope_answers : AnswerMap) : String :=
  joinLines [
    "",
    "        Based on the scope information provided:",
    "        ",
    "        Project Info: " ++ json_dumps_project_info project_info,
    "        Scope Answers: " ++ json_dumps_answers scope_answers,
    "        ",
    "        Generate 6-8 questions to explore potential solution approaches. Focus on:",
    "",
    "        1. Technical Solution Space:",
    "           - Architectural patterns that might fit",
    "           - Technology stack preferences",
    "           - Scalability and performance needs",
    "           - Security requirements",
    "",
    "        2. Implementation Approach:",
    "           - Development methodology",
    "           - Team capabilities and needs",
    "           - Risk mitigation strategies",
    "           - Quality assurance requirements",
    "",
    "        IMPORTANT:",
    "        - Questions should help identify the best solution approaches",
    "        - Focus on both technical and organizational aspects",
    "        - Consider the constraints identified in the scope phase",
    "        ",
    "        Return ONLY a JSON array of strings, with each string being a question.",
    "        "]

def solution_messages (project_info : Option ProjectInfo) (scope_answers : AnswerMap) :
    List Message :=
  [⟨"system", solution_system⟩, ⟨"user", solution_prompt project_info scope_answers⟩]

def _get_fallback_scope_questions : List String :=
  ["What are the specific business objectives this project needs to achieve?",
   "What are the main constraints in terms of timeline and budget?",
   "What are the critical technical limitations or requirements?",
   "Who are the key stakeholders and what are their expectations?",
   "What are the non-negotiable requirements for this project?",
   "What existing systems or processes need to be considered?"]

def _get_fallback_solution_questions : List String :=
  ["What architectural patterns have worked well in your organization?",
   "What are your scalability and performance requirements?",
   "What is your team's experience with different technology stacks?",
   "How do you prefer to handle deployment and operations?",
   "What are your primary security and compliance needs?",
   "What is your preferred development methodology?"]

/-- `ArchitectAgent.generate_scope_questions` (app.py:35-78), instrumented
with the list of message sequences sent to the endpoint.  The `try` catches
only `json.JSONDecodeError`; an upstream failure propagates. -/
def generate_scope_questions (c : Completion) (project_description main_challenge : String)
    (challenges : List String) : Except PyError JValue × List (List Message) :=
  let messages := scope_messages project_description main_challenge challenges
  match _get_completion c 0 messages with
  | .error e => (.error (.upstream e), [messages])
  | .ok response =>
    match json_loads response with
    | some v => (.ok v, [messages])
    | none => (.ok (.arr (_get_fallback_scope_questions.map .str)), [messages])

/-- `ArchitectAgent.generate_solution_questions` (app.py:80-121), same
contract as the scope variant with its own prompt and fallback list. -/
def generate_solution_questions (c : Completion) (project_info : Option ProjectInfo)
    (scope_answers : AnswerMap) : Except PyError JValue × List (List Message) :=
  let messages := solution_messages project_info scope_answers
  match _get_completion c 0 messages with
  | .error e => (.error (.upstream e), [messages])
  | .ok response =>
    match json_loads response with
    | some v => (.ok v, [messages])
    | none => (.ok (.arr (_get_fallback_solution_questions.map .str)), [messages])

def final_system : String :=
  "You are an expert software architect creating detailed solution recommendations. Always provide comprehensive, well-structured responses using markdown formatting."

/-- The analysis prompt of `generate_final_recommendations` (app.py:127-141). -/
def analysis_prompt (project_info : ProjectInfo)
    (scope_answers solution_answers : AnswerMap) : String :=
  joinLines [
    "",
    "        As an expert software architect, analyze all gathered information to generate optimal solution recommendations:",
    "        ",
    "        Project Description: " ++ project_info.description,
    "        Main Challenge: " ++ project_info.main_challenge,
    "        Additional Challenges: " ++ String.intercalate ", " project_info.challenges,
    "        ",
    "        Scope Information:",
    "        " ++ json_dumps_answers scope_answers,
    "        ",
    "        Solution Details:",
    "        " ++ json_dumps_answers solution_answers,
    "        ",
    "        Provide a comprehensive analysis focusing on key requirements, constraints, and potential approaches.",
    "        "]

def analysis_messages (project_info : ProjectInfo)
    (scope_answers solution_answers : AnswerMap) : List Message :=
  [⟨"system", final_system⟩,
   ⟨"user", analysis_prompt project_info scope_answers solution_answers⟩]

/-- The part of the recommendation prompt before the embedded analysis text
(app.py:150-153). -/
def recommendation_prompt_pre : String :=
  joinLines [
    "",
    "        Based on the analysis:",
    "        ",
    "        "]

/-- The part of the recommendation prompt after the embedded analysis text
(app.py:153-205); the doubled braces of the f-string render as single
braces. -/
def recommendation_prompt_post : String :=
  joinLines [
    "",
    "        ",
    "        Generate TWO distinct architectural options that best address the requirements and constraints.",
    "        ",
    "        VERY IMPORTANT: Format your response as a JSON object with this EXACT structure:",
    "        \x7b",
    "            \"option1\": \x7b",
    "                \"overview\": \"# Solution Overview\\n\\n## Key Points\\n- Point 1\\n- Point 2\\n\\n## Main Benefits\\n1. Benefit 1\\n2. Benefit 2\",",
    "                \"technical\": \"# Technical Details\\n\\n## Architecture\\n- Component 1\\n- Component 2\\n\\n## Technology Stack\\n1. Tech 1\\n2. Tech 2\",",
    "                \"implementation\": \"# Implementation Strategy\\n\\n## Phases\\n1. Phase 1\\n2. Phase 2\\n\\n## Team Structure\\n- Team 1\\n- Team 2\",",
    "                \"rationale\": \"# Decision Rationale\\n\\n## Why This Solution\\n- Reason 1\\n- Reason 2\\n\\n## Risk Analysis\\n1. Risk 1\\n2. Risk 2\"",
    "            \x7d,",
    "            \"option2\": \x7b",
    "                \"overview\": \"...\",",
    "                \"technical\": \"...\",",
    "                \"implementation\": \"...\",",
    "                \"rationale\": \"...\"",
    "            \x7d",
    "        \x7d",
    "",
    "        For each option, include:",
    "",
    "        1. Solution Overview (overview):",
    "           - High-level architecture description",
    "           - Key architectural decisions",
    "           - How it addresses the main challenge",
    "           - Primary benefits and trade-offs",
    "",
    "        2. Technical Details (technical):",
    "           - Detailed technology stack",
    "           - Component architecture",
    "           - Integration patterns",
    "           - Security and scalability measures",
    "",
    "        3. Implementation Strategy (implementation):",
    "           - Phased approach",
    "           - Team structure and roles",
    "           - Risk mitigation steps",
    "           - Timeline and milestones",
    "",
    "        4. Decision Rationale (rationale):",
    "           - Why this solution is recommended",
    "           - Cost-benefit analysis",
    "           - Risk assessment",
    "           - Critical success factors",
    "",
    "        IMPORTANT:",
    "        - Use proper markdown formatting with headers, lists, and sections",
    "        - Be specific and detailed in each section",
    "        - Explain the reasoning behind each decision",
    "        - Include concrete examples and metrics where possible",
    "        - Ensure the response is a valid JSON object",
    "        "]

/-- The recommendation prompt embeds the analysis reply verbatim. -/
def recommendation_prompt (analysis : String) : String :=
  recommendation_prompt_pre ++ analysis ++ recommendation_prompt_post

def required_sections : List String :=
  ["overview", "technical", "implementation", "rationale"]

/-- The inner validation loop of `generate_final_recommendations`
(app.py:219-223): for each required section of one option, first the
membership test (raising `KeyError` when absent), then the emptiness test on
the stripped value (raising `ValueError`); Python itself raises `TypeError` /
`AttributeError` when the option or section value has the wrong type. -/
def validate_option (optName : String) (optVal : JValue) :
    List String → Except PyError Unit
  | [] => .ok ()
  | sec :: rest =>
    match py_contains optVal sec with
    | .error e => .error e
    | .ok false => .error (.keyError ("Missing " ++ sec ++ " in " ++ optName))
    | .ok true =>
      match py_getitem optVal sec with
      | .error e => .error e
      | .ok v =>
        match py_strip_falsy v with
        | .error e => .error e
        | .ok true => .error (.valueError ("Empty content in " ++ optName ++ "." ++ sec))
        | .ok false => validate_option optName optVal rest

/-- The outer validation loop of `generate_final_recommendations`
(app.py:215-223): option1 is fully checked before option2. -/
def validate_recommendations (recommendations : JValue) : Except PyError Unit :=
  match py_contains recommendations "option1" with
  | .error e => .error e
  | .ok false => .error (.keyError "Missing option1 in recommendations")
  | .ok true =>
    match py_getitem recommendations "option1" with
    | .error e => .error e
    | .ok opt1 =>
      match validate_option "option1" opt1 required_sections with
      | .error e => .error e
      | .ok () =>
        match py_contains recommendations "option2" with
        | .error e => .error e
        | .ok false => .error (.keyError "Missing option2 in recommendations")
        | .ok true =>
          match py_getitem recommendations "option2" with
          | .error e => .error e
          | .ok opt2 => validate_option "option2" opt2 required_sections

def fb1_overview : String :=
  "# Solution Overview\n\n## Architecture Approach\n- Modular, scalable architecture\n- Focus on maintainability and extensibility\n\n## Key Benefits\n1. Scalable solution\n2. Easy to maintain\n3. Cost-effective implementation\n\n## Main Features\n- Core functionality implementation\n- Integration capabilities\n- Security measures"

def fb1_technical : String :=
  "# Technical Details\n\n## Technology Stack\n- Backend: Python/Java\n- Frontend: React/Angular\n- Database: PostgreSQL/MongoDB\n\n## Components\n1. User Interface Layer\n2. Business Logic Layer\n3. Data Access Layer\n\n## Security\n- Authentication & Authorization\n- Data Encryption\n- Secure Communications"

def fb1_implementation : String :=
  "# Implementation Strategy\n\n## Phases\n1. Initial Setup & Core Features\n2. Integration & Testing\n3. Deployment & Optimization\n\n## Team Structure\n- Frontend Developers\n- Backend Developers\n- DevOps Engineers\n- QA Team"

def fb1_rationale : String :=
  "# Decision Rationale\n\n## Why This Approach\n- Matches project requirements\n- Balances cost and performance\n- Supports future scaling\n\n## Risk Assessment\n1. Technical Risks\n2. Timeline Risks\n3. Resource Risks\n\n## Mitigation Strategies\n- Detailed planning\n- Regular reviews\n- Continuous testing"

def fb2_overview : String :=
  "# Solution Overview\n\n## Architecture Approach\n- Cloud-native architecture\n- Microservices-based design\n\n## Key Benefits\n1. High availability\n2. Easy scaling\n3. Modern architecture\n\n## Main Features\n- Distributed system\n- Cloud services integration\n- Advanced monitoring"

def fb2_technical : String :=
  "# Technical Details\n\n## Technology Stack\n- Cloud Platform: AWS/Azure\n- Containerization: Docker/Kubernetes\n- Serverless Components\n\n## Components\n1. Microservices\n2. API Gateway\n3. Message Queue\n4. Data Store"

def fb2_implementation : String :=
  "# Implementation Strategy\n\n## Phases\n1. Cloud Infrastructure Setup\n2. Service Implementation\n3. Integration & Testing\n4. Deployment\n\n## Team Structure\n- Cloud Architects\n- DevOps Engineers\n- Full-stack Developers\n- SRE Team"

def fb2_rationale : String :=
  "# Decision Rationale\n\n## Why This Approach\n- Modern and future-proof\n- Highly scalable\n- Cost-effective long-term\n\n## Risk Assessment\n1. Complexity Risks\n2. Integration Risks\n3. Skills Gap Risks\n\n## Mitigation Strategies\n- Team training\n- Phased implementation\n- Expert consultation"

/-- The fixed fallback `RecommendationDocument` returned by the `except`
branch of `generate_final_recommendations` (app.py:229-349). -/
def fallback_recommendations : JValue :=
  .obj [("option1", .obj [("overview", .str fb1_overview),
                          ("technical", .str fb1_technical),
                          ("implementation", .str fb1_implementation),
                          ("rationale", .str fb1_rationale)]),
        ("option2", .obj [("overview", .str fb2_overview),
                          ("technical", .str fb2_technical),
                          ("implementation", .str fb2_implementation),
                          ("rationale", .str fb2_rationale)])]

/-- The exception classes named in the `except` clause at app.py:227:
`json.JSONDecodeError`, `KeyError`, `ValueError`. -/
def caught_by_recommendation_handler : PyError → Bool
  | .jsonDecodeError => true
  | .keyError _ => true
  | .valueError _ => true
  | _ => false

/-- The message list of the second (recommendation) call: the analysis call's
messages carried forward, the analysis appended as an assistant message, and
the recommendation prompt as a new user message (app.py:207-208). -/
def recommendation_messages (project_info : ProjectInfo)
    (scope_answers solution_answers : AnswerMap) (analysis : String) : List Message :=
  analysis_messages project_info scope_answers solution_answers ++
    [⟨"assistant", analysis⟩, ⟨"user", recommendation_prompt analysis⟩]

/-- The body of the `try` block at app.py:210-225 applied to the
recommendation reply: parse, validate, and return the parsed document. -/
def recommendation_attempt (response : String) : Except PyError JValue :=
  match json_loads response with
  | none => .error .jsonDecodeError
  | some recommendations =>
    match validate_recommendations recommendations with
    | .ok () => .ok recommendations
    | .error e => .error e

/-- `ArchitectAgent.generate_final_recommendations` (app.py:123-349),
instrumented with the message sequences sent.  The f-string of the analysis
prompt evaluates `project_info['description']` first, so an empty project
dict raises `KeyError` before any call; the analysis call is outside the
`try`; the recommendation call, parse and validation are inside it, and only
`JSONDecodeError` / `KeyError` / `ValueError` select the fallback. -/
def generate_final_recommendations (c : Completion) (project_info? : Option ProjectInfo)
    (scope_answers solution_answers : AnswerMap) :
    Except PyError JValue × List (List Message) :=
  match project_info? with
  | none => (.error (.keyError "description"), [])
  | some project_info =>
  match _get_completion c 0 (analysis_messages project_info scope_answers solution_answers) with
  | .error e => (.error (.upstream e),
                 [analysis_messages project_info scope_answers solution_answers])
  | .ok analysis =>
    match _get_completion c 1
        (recommendation_messages project_info scope_answers solution_answers analysis) with
    | .error e =>
      (.error (.upstream e),
       [analysis_messages project_info scope_answers solution_answers,
        recommendation_messages project_info scope_answers solution_answers analysis])
    | .ok response =>
      (match recommendation_attempt response with
       | .ok recommendations => .ok recommendations
       | .error e =>
         if caught_by_recommendation_handler e then .ok fallback_recommendations
         else .error e,
       [analysis_messages project_info scope_answers solution_answers,
        recommendation_messages project_info scope_answers solution_answers analysis])

/-- The `form_data` session dict (read back with default `''`). -/
structure FormData where
  project_name : String
  main_challenge : String
  project_description : String
deriving DecidableEq

/-- The Streamlit session state of `main()` (app.py:371-391): the step index
plus all accumulated data.  `project_info` and `recommendations` start as the
empty dict / `None` and are modelled as `Option`s. -/
structure SessionState where
  current_step : Nat
  project_info : Option ProjectInfo
  scope_questions : JValue
  scope_answers : AnswerMap
  solution_questions : JValue
  solution_answers : AnswerMap
  recommendations : Option JValue
  form_data : FormData

/-- The state `initialize_session_state` installs when every key is missing,
i.e. after `st.session_state.clear()` or at the first run (app.py:371-391). -/
def init_session_state : SessionState :=
  { current_step := 0
    project_info := none
    scope_questions := .arr []
    scope_answers := []
    solution_questions := .arr []
    solution_answers := []
    recommendations := none
    form_data := ⟨"", "", ""⟩ }

/-- One user interaction with the wizard: the reset button, a back button, the
project form submission (with the typed field values), or a question form
submission (with the text typed in the i-th answer box). -/
inductive Event where
  | reset
  | back
  | submitProject (project_name main_challenge project_description : String)
      (additional_challenges : List String)
  | submitAnswers (inputs : Nat → String)

/-- Python `enumerate` over the stored question value: lists yield their
items, dicts their keys, strings their characters; other values raise
`TypeError` (the question forms iterate whatever the generator stored). -/
def enumerateItems : JValue → Except PyError (List JValue)
  | .arr items => .ok items
  | .obj fields => .ok (fields.map (fun f => .str f.1))
  | .str s => .ok (s.data.map (fun ch => .str (String.singleton ch)))
  | _ => .error (.typeError "object is not iterable")

/-- Python `answers[question] = answer`: update the value at an `==`-equal
key (keeping the original key and position), else append. -/
def dict_insert (m : AnswerMap) (k : JValue) (v : String) : AnswerMap :=
  if m.any (fun p => jbeq p.1 k) then
    m.map (fun p => if jbeq p.1 k then (p.1, v) else p)
  else m ++ [(k, v)]

/-- The answer-collection loop of the question forms (app.py:469-477 and
app.py:500-508): starting at question index `i` with dict `acc`, skip empty
inputs, insert non-empty ones keyed by the question value; an unhashable
question value (list/dict) raises `TypeError` at the insertion. -/
def build_answers : List JValue → (Nat → String) → Nat → AnswerMap →
    Except PyError AnswerMap
  | [], _, _, acc => .ok acc
  | q :: rest, inputs, i, acc =>
    if inputs i = "" then build_answers rest inputs (i + 1) acc
    else
      match q with
      | .arr _ => .error (.typeError "unhashable type: list")
      | .obj _ => .error (.typeError "unhashable type: dict")
      | _ => build_answers rest inputs (i + 1) (dict_insert acc q (inputs i))

/-- One Streamlit script run of `main()` (app.py:393-561) handling one user
event.  The result is the session state after the run together with the
uncaught Python exception, if one aborted the run: Streamlit keeps every
session mutation performed before the raise, which is why the state
component is meaningful even when an error is reported. -/
def main_step (c : Completion) (s : SessionState) (e : Event) :
    SessionState × Option PyError :=
  match e with
  | .reset => (init_session_state, none)
  | .back =>
    if s.current_step = 1 then ({s with current_step := 0}, none)
    else if s.current_step = 2 then ({s with current_step := 1}, none)
    else if s.current_step = 3 then ({s with current_step := 2}, none)
    else (s, none)
  | .submitProject project_name main_challenge project_description additional_challenges =>
    if s.current_step = 0 ∧ project_description ≠ "" ∧ main_challenge ≠ "" then
      let s1 := {s with
        form_data := ⟨project_name, main_challenge, project_description⟩,
        project_info := some ⟨project_description, main_challenge, additional_challenges⟩}
      match generate_scope_questions c project_description main_challenge
          additional_challenges with
      | (.ok qs, _) => ({s1 with scope_questions := qs, current_step := 1}, none)
      | (.error err, _) => (s1, some err)
    else (s, none)
  | .submitAnswers inputs =>
    if s.current_step = 1 then
      match enumerateItems s.scope_questions with
      | .error err => (s, some err)
      | .ok items =>
        match build_answers items inputs 0 [] with
        | .error err => (s, some err)
        | .ok answers =>
          let s1 := {s with scope_answers := answers}
          match generate_solution_questions c s1.project_info s1.scope_answers with
          | (.ok qs, _) => ({s1 with solution_questions := qs, current_step := 2}, none)
          | (.error err, _) => (s1, some err)
    else if s.current_step = 2 then
      match enumerateItems s.solution_questions with
      | .error err => (s, some err)
      | .ok items =>
        match build_answers items inputs 0 [] with
        | .error err => (s, some err)
        | .ok answers =>
          let s1 := {s with solution_answers := answers}
          match generate_final_recommendations c s1.project_info s1.scope_answers
              s1.solution_answers with
          | (.ok recs, _) => ({s1 with recommendations := some recs, current_step := 3}, none)
          | (.error err, _) => (s1, some err)
    else (s, none)

/-- The session states a user can actually reach, starting from the initial
state, by any sequence of events under any completion behavior. -/
inductive Reachable : SessionState → Prop where
  | init : Reachable init_session_state
  | step (c : Completion) (e : Event) {s : SessionState} :
      Reachable s → Reachable (main_step c s e).1

/-! ### Concrete completion stubs and states used by witnesses and
counterexamples -/

/-- Stub endpoint replying with syntactically invalid JSON. -/
def stub_nj : Completion := fun _ _ => .ok "not json"

/-- Stub endpoint replying with the empty JSON object. -/
def stub_obj : Completion := fun _ _ => .ok "\x7b\x7d"

/-- Stub endpoint replying with the empty JSON array. -/
def stub_empty_arr : Completion := fun _ _ => .ok "[]"

/-- Stub endpoint that always fails upstream. -/
def stub_err : Completion := fun _ _ => .error ⟨"completion failed"⟩

/-- Stub endpoint replying with a one-question JSON array. -/
def stub_q1 : Completion := fun _ _ => .ok "[\"Q1?\"]"

/-- Stub endpoint replying with a one-question JSON array (solution round). -/
def stub_s1 : Completion := fun _ _ => .ok "[\"S1?\"]"

/-- Stub endpoint replying with plain free text. -/
def stub_a : Completion := fun _ _ => .ok "A"

/-- Stub endpoint: free-text analysis, then invalid JSON for the
recommendation call. -/
def stub_nj2 : Completion := fun i _ => .ok (if i = 0 then "A" else "not json")

/-- Stub endpoint: free-text analysis, then the JSON value `null` for the
recommendation call. -/
def stub_null_rec : Completion := fun i _ => .ok (if i = 0 then "THE ANALYSIS" else "null")

/-- Stub endpoint: free-text analysis, then the empty JSON array for the
recommendation call. -/
def stub_arr_rec : Completion := fun i _ => .ok (if i = 0 then "A" else "[]")

/-- The state after submitting the project form against `stub_q1`:
step 1 with one scope question. -/
def wiz_state1 : SessionState :=
  (main_step stub_q1 init_session_state (.submitProject "proj" "mc" "desc" [])).1

/-- The state after also answering the scope round against `stub_s1`:
step 2 with one solution question and one recorded scope answer. -/
def wiz_state2 : SessionState :=
  (main_step stub_s1 wiz_state1 (.submitAnswers fun _ => "a1")).1

/-! ### Helper lemmas -/

theorem jbeq_str_iff (a : JValue) (k : String) : jbeq a (.str k) = true ↔ a = .str k := by
  cases a <;> simp [jbeq]

theorem build_answers_str_ok (qs : List String) (inputs : Nat → String) :
    ∀ (i : Nat) (acc : AnswerMap),
      ∃ am, build_answers (qs.map .str) inputs i acc = .ok am := by
  induction qs with
  | nil => exact fun i acc => ⟨acc, rfl⟩
  | cons q rest ih =>
    intro i acc
    by_cases h : inputs i = ""
    · simpa [build_answers, h] using ih (i + 1) acc
    · simpa [build_answers, h] using ih (i + 1) (dict_insert acc (.str q) (inputs i))

theorem build_answers_all_empty (items : List JValue) :
    ∀ (i : Nat) (acc : AnswerMap),
      build_answers items (fun _ => "") i acc = .ok acc := by
  induction items with
  | nil => exact fun i acc => rfl
  | cons q rest ih => exact fun i acc => by simpa [build_answers] using ih (i + 1) acc

/-! ### Claims -/

/-- Claim C7 (confirmed): invoking reset from any wizard state unconditionally
returns the pipeline to the freshly constructed initial state: step index 0,
empty project facts, empty question lists, empty answer maps, and no
recommendation document. -/
theorem claim_C7_reset_restores_initial (c : Completion) (s : SessionState) :
    main_step c s .reset = (init_session_state, none) ∧
    init_session_state.current_step = 0 ∧
    init_session_state.project_info = none ∧
    init_session_state.scope_questions = .arr [] ∧
    init_session_state.scope_answers = [] ∧
    init_session_state.solution_questions = .arr [] ∧
    init_session_state.solution_answers = [] ∧
    init_session_state.recommendations = none :=
  ⟨rfl, rfl, rfl, rfl, rfl, rfl, rfl, rfl⟩

/-- Claim C6, amended (corrected): a Back transition from the solution round
(step 2) to the scope round (step 1) changes only the step index: it preserves
the round-1 answer map exactly, and it also leaves the already-generated
round-2 question set and round-2 answer map in place (they are only replaced
when the scope form is submitted again), rather than discarding them. -/
theorem claim_C6_back_preserves_everything (c : Completion) (s : SessionState)
    (h : s.current_step = 2) :
    main_step c s .back = ({s with current_step := 1}, none) ∧
    ({s with current_step := 1} : SessionState).scope_answers = s.scope_answers ∧
    ({s with current_step := 1} : SessionState).solution_questions = s.solution_questions ∧
    ({s with current_step := 1} : SessionState).solution_answers = s.solution_answers := by
  refine ⟨?_, rfl, rfl, rfl⟩
  simp [main_step, h]

/-- Witness for C6: the back transition applied at a concrete step-2 state. -/
theorem claim_C6_witness :
    main_step stub_q1 { init_session_state with current_step := 2 } .back =
      ({ { init_session_state with current_step := 2 } with current_step := 1 }, none) :=
  (claim_C6_back_preserves_everything stub_q1 _ rfl).1

/-- Counterexample for C6 as stated: in a concrete run that reaches step 2
with a generated round-2 question set, pressing Back to step 1 keeps the
round-2 question set (and everything else) intact — nothing is discarded,
contradicting the claim that round-2 data is discarded. -/
theorem claim_C6_counterexample :
    wiz_state2.current_step = 2 ∧
    wiz_state2.solution_questions = JValue.arr [JValue.str "S1?"] ∧
    (main_step stub_q1 wiz_state2 .back).1.current_step = 1 ∧
    (main_step stub_q1 wiz_state2 .back).1.solution_questions = JValue.arr [JValue.str "S1?"] ∧
    JValue.arr [JValue.str "S1?"] ≠ JValue.arr [] ∧
    (main_step stub_q1 wiz_state2 .back).1.scope_answers = [(JValue.str "Q1?", "a1")] :=
  ⟨rfl, rfl, rfl, rfl, by simp, rfl⟩

/-- Claim C4 (confirmed): synthesis performs exactly two sequential completion
calls; the first (analysis) reply is accepted whatever text it is, and the
second call's messages are the first call's messages carried forward plus the
analysis as an assistant message and a user prompt embedding the analysis
verbatim. -/
theorem claim_C4_two_chained_calls (c : Completion) (info : ProjectInfo)
    (sa so : AnswerMap) (analysis : String)
    (h : c 0 (analysis_messages info sa so) = .ok analysis) :
    (generate_final_recommendations c (some info) sa so).2 =
      [analysis_messages info sa so,
       analysis_messages info sa so ++
         [⟨"assistant", analysis⟩, ⟨"user", recommendation_prompt analysis⟩]] ∧
    recommendation_messages info sa so analysis =
      analysis_messages info sa so ++
        [⟨"assistant", analysis⟩, ⟨"user", recommendation_prompt analysis⟩] ∧
    recommendation_prompt analysis =
      recommendation_prompt_pre ++ analysis ++ recommendation_prompt_post := by
  refine ⟨?_, rfl, rfl⟩
  unfold generate_final_recommendations _get_completion
  simp only [h]
  cases hx : c 1 (recommendation_messages info sa so analysis) with
  | error e => simp [recommendation_messages]
  | ok response => simp [recommendation_messages]

/-- Witness for C4 at a concrete completion stub. -/
theorem claim_C4_witness :
    (generate_final_recommendations stub_a (some ⟨"d", "m", []⟩) [] []).2 =
      [analysis_messages ⟨"d", "m", []⟩ [] [],
       analysis_messages ⟨"d", "m", []⟩ [] [] ++
         [⟨"assistant", "A"⟩, ⟨"user", recommendation_prompt "A"⟩]] ∧
    recommendation_messages ⟨"d", "m", []⟩ [] [] "A" =
      analysis_messages ⟨"d", "m", []⟩ [] [] ++
        [⟨"assistant", "A"⟩, ⟨"user", recommendation_prompt "A"⟩] ∧
    recommendation_prompt "A" =
      recommendation_prompt_pre ++ "A" ++ recommendation_prompt_post :=
  claim_C4_two_chained_calls stub_a ⟨"d", "m", []⟩ [] [] "A" rfl

/-- Claim C8, amended (corrected): an upstream completion failure is caught
nowhere: the error propagates out of the run and the phase index does not
advance, so retrying is calling the same operation again.  However, the
session fields assigned before the completion call are recorded: the project
form submission has already stored the form data and project facts, and a
question form submission has already stored that round's answer map; only the
phase's generated output is left unchanged. -/
theorem claim_C8_upstream_propagates (c : Completion) (err : UpstreamError)
    (hc : ∀ i m, c i m = .error err) :
    (∀ (s : SessionState) (pn mc desc : String) (ch : List String),
      s.current_step = 0 → desc ≠ "" → mc ≠ "" →
      main_step c s (.submitProject pn mc desc ch) =
        ({s with form_data := ⟨pn, mc, desc⟩,
                 project_info := some ⟨desc, mc, ch⟩}, some (.upstream err))) ∧
    (∀ (s : SessionState) (qs : List String) (inputs : Nat → String),
      s.current_step = 1 → s.scope_questions = .arr (qs.map .str) →
      ∃ am, build_answers (qs.map .str) inputs 0 [] = .ok am ∧
        main_step c s (.submitAnswers inputs) =
          ({s with scope_answers := am}, some (.upstream err))) ∧
    (∀ (s : SessionState) (info : ProjectInfo) (qs : List String) (inputs : Nat → String),
      s.current_step = 2 → s.project_info = some info →
      s.solution_questions = .arr (qs.map .str) →
      ∃ am, build_answers (qs.map .str) inputs 0 [] = .ok am ∧
        main_step c s (.submitAnswers inputs) =
          ({s with solution_answers := am}, some (.upstream err))) := by
  refine ⟨?_, ?_, ?_⟩
  · intro s pn mc desc ch h0 hd hm
    simp [main_step, h0, hd, hm, generate_scope_questions, _get_completion, hc]
  · intro s qs inputs h1 hsq
    obtain ⟨am, ham⟩ := build_answers_str_ok qs inputs 0 []
    refine ⟨am, ham, ?_⟩
    simp [main_step, h1, hsq, enumerateItems, ham, generate_solution_questions,
          _get_completion, hc]
  · intro s info qs inputs h2 hpi hsq
    obtain ⟨am, ham⟩ := build_answers_str_ok qs inputs 0 []
    refine ⟨am, ham, ?_⟩
    simp [main_step, h2, hsq, enumerateItems, ham, generate_final_recommendations,
          _get_completion, hc, hpi]

/-- Witness for C8: a failing endpoint at the concrete initial project
submission. -/
theorem claim_C8_witness :
    main_step stub_err init_session_state (.submitProject "p" "m" "d" []) =
      ({init_session_state with form_data := ⟨"p", "m", "d"⟩,
                                project_info := some ⟨"d", "m", []⟩},
       some (.upstream ⟨"completion failed"⟩)) :=
  (claim_C8_upstream_propagates stub_err ⟨"completion failed"⟩ (fun _ _ => rfl)).1
    init_session_state "p" "m" "d" [] rfl (by decide) (by decide)

/-- Counterexample for C8 as stated: when the endpoint fails during the
project submission, the error does propagate and the step does not advance,
but the wizard state is not unchanged — the project facts were already
recorded before the call. -/
theorem claim_C8_counterexample :
    (main_step stub_err init_session_state (.submitProject "p" "m" "d" [])).1.project_info =
      some ⟨"d", "m", []⟩ ∧
    init_session_state.project_info = none ∧
    (main_step stub_err init_session_state (.submitProject "p" "m" "d" [])).1.current_step = 0 ∧
    (main_step stub_err init_session_state (.submitProject "p" "m" "d" [])).2 =
      some (.upstream ⟨"completion failed"⟩) ∧
    (main_step stub_err init_session_state (.submitProject "p" "m" "d" [])).1 ≠
      init_session_state := by
  refine ⟨rfl, rfl, rfl, rfl, fun h => ?_⟩
  have := congrArg SessionState.project_info h
  simp only [init_session_state] at this
  exact Option.noConfusion this

/-- Claim C2, amended (corrected): for both question phases, if the
completion reply is syntactically invalid JSON, the operation returns exactly
the fixed phase-specific fallback list, the wizard phase still advances, and
the endpoint is invoked exactly once for the phase (the call log has one
entry) — never retried.  However, a reply that is valid JSON but not an array
of question strings is returned unchanged, not replaced by the fallback: only
`json.JSONDecodeError` triggers it. -/
theorem claim_C2_syntax_error_fallback (c : Completion) (reply : String)
    (hc : ∀ i m, c i m = .ok reply) (hbad : json_loads reply = none) :
    (∀ (pd mc : String) (ch : List String),
      generate_scope_questions c pd mc ch =
        (.ok (.arr (_get_fallback_scope_questions.map .str)), [scope_messages pd mc ch])) ∧
    (∀ (info : Option ProjectInfo) (sa : AnswerMap),
      generate_solution_questions c info sa =
        (.ok (.arr (_get_fallback_solution_questions.map .str)), [solution_messages info sa])) ∧
    (∀ (s : SessionState) (pn mc desc : String) (ch : List String),
      s.current_step = 0 → desc ≠ "" → mc ≠ "" →
      (main_step c s (.submitProject pn mc desc ch)).1.current_step = 1 ∧
      (main_step c s (.submitProject pn mc desc ch)).2 = none) ∧
    (∀ (s : SessionState) (qs : List String) (inputs : Nat → String),
      s.current_step = 1 → s.scope_questions = .arr (qs.map .str) →
      (main_step c s (.submitAnswers inputs)).1.current_step = 2 ∧
      (main_step c s (.submitAnswers inputs)).2 = none) := by
  refine ⟨?_, ?_, ?_, ?_⟩
  · intro pd mc ch
    simp [generate_scope_questions, _get_completion, hc, hbad]
  · intro info sa
    simp [generate_solution_questions, _get_completion, hc, hbad]
  · intro s pn mc desc ch h0 hd hm
    simp [main_step, h0, hd, hm, generate_scope_questions, _get_completion, hc, hbad]
  · intro s qs inputs h1 hsq
    obtain ⟨am, ham⟩ := build_answers_str_ok qs inputs 0 []
    simp [main_step, h1, hsq, enumerateItems, ham, generate_solution_questions,
          _get_completion, hc, hbad]

/-- Witness for C2: the literal reply `not json` at concrete inputs. -/
theorem claim_C2_witness :
    generate_scope_questions stub_nj "d" "m" [] =
      (.ok (.arr (_get_fallback_scope_questions.map .str)), [scope_messages "d" "m" []]) ∧
    (main_step stub_nj init_session_state (.submitProject "p" "m" "d" [])).1.current_step = 1 :=
  ⟨(claim_C2_syntax_error_fallback stub_nj "not json" (fun _ _ => rfl) rfl).1 "d" "m" [],
   ((claim_C2_syntax_error_fallback stub_nj "not json" (fun _ _ => rfl) rfl).2.2.1
     init_session_state "p" "m" "d" [] rfl (by decide) (by decide)).1⟩

/-- Counterexample for C2 as stated: the reply `{}` is valid JSON but is not
an ordered sequence of question strings; the claim requires the fixed
fallback list, yet both generators return the parsed empty object unchanged. -/
theorem claim_C2_counterexample :
    (generate_scope_questions stub_obj "d" "m" []).1 = .ok (JValue.obj []) ∧
    (generate_solution_questions stub_obj (some ⟨"d", "m", []⟩) []).1 = .ok (JValue.obj []) ∧
    JValue.obj [] ≠ JValue.arr (_get_fallback_scope_questions.map .str) ∧
    JValue.obj [] ≠ JValue.arr (_get_fallback_solution_questions.map .str) :=
  ⟨rfl, rfl, fun h => JValue.noConfusion h, fun h => JValue.noConfusion h⟩

/-- Claim C3, amended (corrected): for all project facts with non-empty
description and main challenge, when the completion call returns a reply (no
upstream failure), the submission transitions the wizard from step 0 to
step 1 and records the facts; the stored question set is the parsed reply, or
the fixed 6-item fallback when the reply is invalid JSON — it is therefore
non-empty whenever the reply is invalid JSON or parses to a non-empty array,
but a reply of the empty JSON array `[]` is stored as an empty question
set. -/
theorem claim_C3_submit_project_questions (c : Completion) (s : SessionState)
    (pn mc desc : String) (ch : List String) (reply : String)
    (h0 : s.current_step = 0) (hd : desc ≠ "") (hm : mc ≠ "")
    (hc : c 0 (scope_messages desc mc ch) = .ok reply) :
    (main_step c s (.submitProject pn mc desc ch)).1.current_step = 1 ∧
    (main_step c s (.submitProject pn mc desc ch)).1.project_info = some ⟨desc, mc, ch⟩ ∧
    (main_step c s (.submitProject pn mc desc ch)).2 = none ∧
    (json_loads reply = none →
      (main_step c s (.submitProject pn mc desc ch)).1.scope_questions =
        .arr (_get_fallback_scope_questions.map .str) ∧
      (_get_fallback_scope_questions.map JValue.str).length = 6) ∧
    (∀ xs, json_loads reply = some (.arr xs) →
      (main_step c s (.submitProject pn mc desc ch)).1.scope_questions = .arr xs) := by
  have key : main_step c s (.submitProject pn mc desc ch) =
      ({s with form_data := ⟨pn, mc, desc⟩,
               project_info := some ⟨desc, mc, ch⟩,
               scope_questions :=
                 (match json_loads reply with
                  | some v => v
                  | none => .arr (_get_fallback_scope_questions.map .str)),
               current_step := 1}, none) := by
    cases hjl : json_loads reply with
    | none =>
      simp [main_step, h0, hd, hm, generate_scope_questions, _get_completion, hc, hjl]
    | some v =>
      simp [main_step, h0, hd, hm, generate_scope_questions, _get_completion, hc, hjl]
  refine ⟨by rw [key], by rw [key], by rw [key], ?_, ?_⟩
  · intro hjl
    rw [key]
    simp [hjl, _get_fallback_scope_questions]
  · intro xs hjl
    rw [key]
    simp [hjl]

/-- Witness for C3: the invalid reply at the concrete initial state. -/
theorem claim_C3_witness :
    (main_step stub_nj init_session_state (.submitProject "p" "m" "d" [])).1.current_step = 1 ∧
    (main_step stub_nj init_session_state
      (.submitProject "p" "m" "d" [])).1.scope_questions =
      .arr (_get_fallback_scope_questions.map .str) :=
  ⟨(claim_C3_submit_project_questions stub_nj init_session_state "p" "m" "d" [] "not json"
      rfl (by decide) (by decide) rfl).1,
   ((claim_C3_submit_project_questions stub_nj init_session_state "p" "m" "d" [] "not json"
      rfl (by decide) (by decide) rfl).2.2.2.1 rfl).1⟩

/-- Counterexample for C3 as stated: with non-empty description and main
challenge and a completion reply of `[]` (valid JSON), the wizard advances to
step 1 but the returned question set is empty, contradicting the claimed
non-empty `QuestionSet`. -/
theorem claim_C3_counterexample :
    (main_step stub_empty_arr init_session_state
      (.submitProject "p" "m" "d" [])).1.current_step = 1 ∧
    (main_step stub_empty_arr init_session_state
      (.submitProject "p" "m" "d" [])).1.scope_questions = JValue.arr [] ∧
    (main_step stub_empty_arr init_session_state (.submitProject "p" "m" "d" [])).2 = none :=
  ⟨rfl, rfl, rfl⟩

/-- Claim C10 (confirmed): submitting a question round with every answer box
left empty is accepted — the wizard stores an empty answer map for the round
and still advances to the next phase; no answer to a generated question is
required for a phase transition.  (Stated for a completion whose next reply
is invalid JSON, so the next phase's payload is the fixed fallback.) -/
theorem claim_C10_empty_answers_advance (c : Completion) (reply : String)
    (hc : ∀ i m, c i m = .ok reply) (hbad : json_loads reply = none) :
    (∀ (s : SessionState) (items : List JValue),
      s.current_step = 1 → s.scope_questions = .arr items →
      main_step c s (.submitAnswers fun _ => "") =
        ({s with scope_answers := [],
                 solution_questions := .arr (_get_fallback_solution_questions.map .str),
                 current_step := 2}, none)) ∧
    (∀ (s : SessionState) (info : ProjectInfo) (items : List JValue),
      s.current_step = 2 → s.project_info = some info → s.solution_questions = .arr items →
      main_step c s (.submitAnswers fun _ => "") =
        ({s with solution_answers := [],
                 recommendations := some fallback_recommendations,
                 current_step := 3}, none)) := by
  constructor
  · intro s items h1 hsq
    simp [main_step, h1, hsq, enumerateItems, build_answers_all_empty,
          generate_solution_questions, _get_completion, hc, hbad]
  · intro s info items h2 hpi hsq
    simp [main_step, h2, hsq, enumerateItems, build_answers_all_empty,
          generate_final_recommendations, _get_completion, hc, hpi,
          recommendation_attempt, hbad, caught_by_recommendation_handler]

theorem dict_insert_mem_str (acc : AnswerMap) (q v0 : String) (k : JValue) (v : String)
    (h : (k, v) ∈ dict_insert acc (.str q) v0) :
    (k, v) ∈ acc ∨ (k = .str q ∧ v = v0) := by
  unfold dict_insert at h
  by_cases hany : acc.any (fun p => jbeq p.1 (.str q)) = true
  · rw [if_pos hany] at h
    obtain ⟨p, hp, hpe⟩ := List.mem_map.mp h
    by_cases hpq : jbeq p.1 (.str q) = true
    · rw [if_pos hpq] at hpe
      have hk : p.1 = k := congrArg Prod.fst hpe
      have hv : v0 = v := congrArg Prod.snd hpe
      exact .inr ⟨hk ▸ (jbeq_str_iff _ _).mp hpq, hv.symm⟩
    · rw [if_neg hpq] at hpe
      exact .inl (hpe ▸ hp)
  · rw [if_neg hany] at h
    rcases List.mem_append.mp h with h' | h'
    · exact .inl h'
    · have := List.mem_singleton.mp h'
      exact .inr ⟨congrArg Prod.fst this, congrArg Prod.snd this⟩

theorem dict_insert_key_mem_str (acc : AnswerMap) (q v0 : String) (k : JValue) :
    (∃ v, (k, v) ∈ dict_insert acc (.str q) v0) ↔ (∃ v, (k, v) ∈ acc) ∨ k = .str q := by
  constructor
  · rintro ⟨v, hv⟩
    rcases dict_insert_mem_str acc q v0 k v hv with h | ⟨hk, _⟩
    · exact .inl ⟨v, h⟩
    · exact .inr hk
  · rintro (⟨v, hv⟩ | rfl)
    · unfold dict_insert
      by_cases hany : acc.any (fun p => jbeq p.1 (.str q)) = true
      · rw [if_pos hany]
        by_cases hk : jbeq k (.str q) = true
        · exact ⟨v0, List.mem_map.mpr ⟨(k, v), hv, by rw [if_pos hk]⟩⟩
        · exact ⟨v, List.mem_map.mpr ⟨(k, v), hv, by rw [if_neg hk]⟩⟩
      · rw [if_neg hany]
        exact ⟨v, List.mem_append.mpr (.inl hv)⟩
    · unfold dict_insert
      by_cases hany : acc.any (fun p => jbeq p.1 (.str q)) = true
      · rw [if_pos hany]
        obtain ⟨p, hp, hpq⟩ := List.any_eq_true.mp hany
        have hpk : p.1 = .str q := (jbeq_str_iff _ _).mp hpq
        exact ⟨v0, List.mem_map.mpr ⟨p, hp, by rw [if_pos hpq, hpk]⟩⟩
      · rw [if_neg hany]
        exact ⟨v0, List.mem_append.mpr (.inr (List.mem_singleton.mpr rfl))⟩

/-- Characterization of the answer-collection loop over a question list of
strings: the collection always succeeds, each recorded entry is a non-empty
input keyed by the question text at some index, and a key is present exactly
when some occurrence of that question received a non-empty input. -/
theorem build_answers_str_spec (inputs : Nat → String) :
    ∀ (qs : List String) (i0 : Nat) (acc : AnswerMap),
      ∃ am, build_answers (qs.map .str) inputs i0 acc = .ok am ∧
        (∀ k v, (k, v) ∈ am → (k, v) ∈ acc ∨
          (v ≠ "" ∧ ∃ j x, qs.get? j = some x ∧ k = .str x ∧ inputs (i0 + j) = v)) ∧
        (∀ k, (∃ v, (k, v) ∈ am) ↔ (∃ v, (k, v) ∈ acc) ∨
          ∃ j x, qs.get? j = some x ∧ k = .str x ∧ inputs (i0 + j) ≠ "") := by
  intro qs
  induction qs with
  | nil =>
    intro i0 acc
    exact ⟨acc, rfl, fun k v h => .inl h, fun k => by simp⟩
  | cons q rest ih =>
    intro i0 acc
    by_cases hemp : inputs i0 = ""
    · obtain ⟨am, ham, hmem, hkey⟩ := ih (i0 + 1) acc
      refine ⟨am, by simpa [build_answers, hemp] using ham, ?_, ?_⟩
      · intro k v h
        rcases hmem k v h with h' | ⟨hv, j, x, hj, hk, hin⟩
        · exact .inl h'
        · exact .inr ⟨hv, j + 1, x, hj,
            hk, by rw [show i0 + (j + 1) = i0 + 1 + j by omega]; exact hin⟩
      · intro k
        rw [hkey k]
        constructor
        · rintro (h | ⟨j, x, hj, hk, hin⟩)
          · exact .inl h
          · exact .inr ⟨j + 1, x, hj, hk,
              by rw [show i0 + (j + 1) = i0 + 1 + j by omega]; exact hin⟩
        · rintro (h | ⟨j, x, hj, hk, hin⟩)
          · exact .inl h
          · cases j with
            | zero => exact absurd hemp hin
            | succ j' =>
              exact .inr ⟨j', x, hj,
                hk, by rw [show i0 + 1 + j' = i0 + (j' + 1) by omega]; exact hin⟩
    · obtain ⟨am, ham, hmem, hkey⟩ := ih (i0 + 1) (dict_insert acc (.str q) (inputs i0))
      refine ⟨am, by simpa [build_answers, hemp] using ham, ?_, ?_⟩
      · intro k v h
        rcases hmem k v h with h' | ⟨hv, j, x, hj, hk, hin⟩
        · rcases dict_insert_mem_str acc q (inputs i0) k v h' with h'' | ⟨hk, hv⟩
          · exact .inl h''
          · exact .inr ⟨by rw [hv]; exact hemp, 0, q, rfl, hk, hv.symm⟩
        · exact .inr ⟨hv, j + 1, x, hj, hk,
            by rw [show i0 + (j + 1) = i0 + 1 + j by omega]; exact hin⟩
      · intro k
        rw [hkey k, dict_insert_key_mem_str]
        constructor
        · rintro ((h | rfl) | ⟨j, x, hj, hk, hin⟩)
          · exact .inl h
          · exact .inr ⟨0, q, rfl, rfl, hemp⟩
          · exact .inr ⟨j + 1, x, hj, hk,
              by rw [show i0 + (j + 1) = i0 + 1 + j by omega]; exact hin⟩
        · rintro (h | ⟨j, x, hj, hk, hin⟩)
          · exact .inl (.inl h)
          · cases j with
            | zero => exact .inl (.inr ((Option.some.inj hj) ▸ hk))
            | succ j' =>
              exact .inr ⟨j', x, hj, hk,
                by rw [show i0 + 1 + j' = i0 + (j' + 1) by omega]; exact hin⟩

/-- Claim C9 (confirmed): for a question round whose stored question set is a
list of strings, the collected answer map always builds, it has an entry for
a question exactly when the user typed a non-empty answer for some occurrence
of it, every retained value is a non-empty input given for its key's question
text, entries are keyed by the question text (not by index), and it is this
map that the step-1 submission stores in the session. -/
theorem claim_C9_answer_map_iff (qs : List String) (inputs : Nat → String) :
    ∃ am, build_answers (qs.map .str) inputs 0 [] = .ok am ∧
      (∀ k v, (k, v) ∈ am →
        v ≠ "" ∧ ∃ j x, qs.get? j = some x ∧ k = .str x ∧ inputs j = v) ∧
      (∀ x : String, (∃ v, (.str x, v) ∈ am) ↔ ∃ j, qs.get? j = some x ∧ inputs j ≠ "") ∧
      (∀ (c : Completion) (s : SessionState), s.current_step = 1 →
        s.scope_questions = .arr (qs.map .str) →
        (main_step c s (.submitAnswers inputs)).1.scope_answers = am) := by
  obtain ⟨am, ham, hmem, hkey⟩ := build_answers_str_spec inputs qs 0 []
  refine ⟨am, ham, ?_, ?_, ?_⟩
  · intro k v h
    rcases hmem k v h with h' | ⟨hv, j, x, hj, hk, hin⟩
    · exact absurd h' (List.not_mem_nil _)
    · exact ⟨hv, j, x, hj, hk, by simpa using hin⟩
  · intro x
    rw [hkey (.str x)]
    simp only [List.not_mem_nil, exists_const, false_or, Nat.zero_add, JValue.str.injEq]
    constructor
    · rintro ⟨j, y, hj, rfl, hin⟩
      exact ⟨j, hj, hin⟩
    · rintro ⟨j, hj, hin⟩
      exact ⟨j, x, hj, rfl, hin⟩
  · intro c s h1 hsq
    rcases hg : generate_solution_questions c s.project_info am with ⟨r, calls⟩
    cases r with
    | ok qv => simp [main_step, h1, hsq, enumerateItems, ham, hg]
    | error e => simp [main_step, h1, hsq, enumerateItems, ham, hg]

/-- How one event can change the step index: not at all; up by one (only from
steps 0-2, on a successful submission); down by one (a back button); or a
reset to the initial state. -/
theorem main_step_delta (c : Completion) (s : SessionState) (e : Event) :
    (main_step c s e).1.current_step = s.current_step ∨
    ((main_step c s e).1.current_step = s.current_step + 1 ∧ s.current_step ≤ 2) ∨
    s.current_step = (main_step c s e).1.current_step + 1 ∨
    (e = .reset ∧ (main_step c s e).1 = init_session_state) := by
  cases e with
  | reset => exact .inr (.inr (.inr ⟨rfl, rfl⟩))
  | back =>
    by_cases h1 : s.current_step = 1
    · right; right; left; simp [main_step, h1]
    · by_cases h2 : s.current_step = 2
      · right; right; left; simp [main_step, h1, h2]
      · by_cases h3 : s.current_step = 3
        · right; right; left; simp [main_step, h1, h2, h3]
        · left; simp [main_step, h1, h2, h3]
  | submitProject pn mc desc ch =>
    by_cases hg : s.current_step = 0 ∧ desc ≠ "" ∧ mc ≠ ""
    · rcases hgen : generate_scope_questions c desc mc ch with ⟨r, calls⟩
      cases r with
      | ok qs =>
        right; left
        refine ⟨?_, by omega⟩
        simp [main_step, hg, hgen, hg.1]
      | error err => left; simp [main_step, hg, hgen]
    · left; simp [main_step, hg]
  | submitAnswers inputs =>
    by_cases h1 : s.current_step = 1
    · rcases hen : enumerateItems s.scope_questions with err | items
      · left; simp [main_step, h1, hen]
      · rcases hb : build_answers items inputs 0 [] with err | answers
        · left; simp [main_step, h1, hen, hb]
        · rcases hgen : generate_solution_questions c s.project_info answers with ⟨r, calls⟩
          cases r with
          | ok qs =>
            right; left
            refine ⟨?_, by omega⟩
            simp [main_step, h1, hen, hb, hgen]
          | error err => left; simp [main_step, h1, hen, hb, hgen]
    · by_cases h2 : s.current_step = 2
      · rcases hen : enumerateItems s.solution_questions with err | items
        · left; simp [main_step, h1, h2, hen]
        · rcases hb : build_answers items inputs 0 [] with err | answers
          · left; simp [main_step, h1, h2, hen, hb]
          · rcases hgen : generate_final_recommendations c s.project_info
                s.scope_answers answers with ⟨r, calls⟩
            cases r with
            | ok recs =>
              right; left
              refine ⟨?_, by omega⟩
              simp [main_step, h1, h2, hen, hb, hgen]
            | error err => left; simp [main_step, h1, h2, hen, hb, hgen]
      · left; simp [main_step, h1, h2]

/-- Every reachable state has its step index within 0..3. -/
theorem reachable_current_step_le (s : SessionState) (h : Reachable s) :
    s.current_step ≤ 3 := by
  induction h with
  | init => exact Nat.zero_le 3
  | step c e hs ih =>
    rename_i s'
    rcases main_step_delta c s' e with h1 | ⟨h2, h3⟩ | h4 | ⟨_, h5⟩
    · omega
    · omega
    · omega
    · rw [h5]; exact Nat.zero_le 3

/-- Claim C5, amended (corrected): in every reachable wizard state the step
index stays within 0..3, and one event changes it only by exactly +1 (a
successful submission of the current phase, possible only from steps 0-2), by
exactly -1 (an explicit back transition), or — the amendment — by dropping to
the initial state (index 0) on an explicit reset, which from steps 2 and 3 is
a jump of more than one. -/
theorem claim_C5_phase_discipline (s : SessionState) (h : Reachable s) :
    s.current_step ≤ 3 ∧
    ∀ (c : Completion) (e : Event),
      (main_step c s e).1.current_step ≤ 3 ∧
      ((main_step c s e).1.current_step = s.current_step ∨
       ((main_step c s e).1.current_step = s.current_step + 1 ∧ s.current_step ≤ 2) ∨
       s.current_step = (main_step c s e).1.current_step + 1 ∨
       (e = .reset ∧ (main_step c s e).1 = init_session_state)) :=
  ⟨reachable_current_step_le s h, fun c e =>
    ⟨reachable_current_step_le _ (Reachable.step c e h), main_step_delta c s e⟩⟩

/-- Witness for C5: the discipline evaluated at the initial state under a
concrete event. -/
theorem claim_C5_witness :
    init_session_state.current_step ≤ 3 ∧
    (main_step stub_nj init_session_state .reset).1.current_step ≤ 3 ∧
    ((main_step stub_nj init_session_state .reset).1.current_step =
        init_session_state.current_step ∨
     ((main_step stub_nj init_session_state .reset).1.current_step =
        init_session_state.current_step + 1 ∧ init_session_state.current_step ≤ 2) ∨
     init_session_state.current_step =
        (main_step stub_nj init_session_state .reset).1.current_step + 1 ∨
     (Event.reset = Event.reset ∧
        (main_step stub_nj init_session_state Event.reset).1 = init_session_state)) :=
  ⟨(claim_C5_phase_discipline init_session_state Reachable.init).1,
   ((claim_C5_phase_discipline init_session_state Reachable.init).2 stub_nj .reset).1,
   ((claim_C5_phase_discipline init_session_state Reachable.init).2 stub_nj .reset).2⟩

/-- Counterexample for C5 as stated: a concrete reachable state at step 2
from which the reset event moves the index to 0 — a change that is neither +1
nor -1, so the index does not change "only by exactly +1 or -1". -/
theorem claim_C5_counterexample :
    Reachable wiz_state2 ∧
    wiz_state2.current_step = 2 ∧
    (main_step stub_q1 wiz_state2 .reset).1.current_step = 0 ∧
    (main_step stub_q1 wiz_state2 .reset).1.current_step ≠ wiz_state2.current_step ∧
    (main_step stub_q1 wiz_state2 .reset).1.current_step ≠ wiz_state2.current_step + 1 ∧
    wiz_state2.current_step ≠ (main_step stub_q1 wiz_state2 .reset).1.current_step + 1 := by
  refine ⟨?_, rfl, rfl, by decide, by decide, by decide⟩
  exact Reachable.step stub_s1 (.submitAnswers fun _ => "a1")
    (Reachable.step stub_q1 (.submitProject "proj" "mc" "desc" []) Reachable.init)

/-- Dict lookup on a parsed JSON object (the value Python's `in` and `[]`
consult). -/
def lookupField (fields : List (String × JValue)) (k : String) : Option JValue :=
  (fields.find? (fun f => f.1 == k)).map (fun f => f.2)

theorem any_eq_find_isSome {α} (p : α → Bool) (l : List α) :
    l.any p = (l.find? p).isSome := by
  induction l with
  | nil => rfl
  | cons x xs ih => by_cases h : p x = true <;> simp [List.find?, h, ih]

theorem py_contains_obj (fields : List (String × JValue)) (k : String) :
    py_contains (.obj fields) k = .ok ((lookupField fields k).isSome) := by
  unfold lookupField
  rw [show py_contains (.obj fields) k = .ok (fields.any fun f => f.1 == k) from rfl,
      any_eq_find_isSome]
  cases List.find? (fun f => f.1 == k) fields <;> rfl

theorem py_getitem_obj (fields : List (String × JValue)) (k : String) :
    py_getitem (.obj fields) k =
      (match lookupField fields k with
       | some v => .ok v
       | none => .error (.keyError k)) := by
  unfold lookupField
  rw [show py_getitem (.obj fields) k =
      (match List.find? (fun f => f.1 == k) fields with
       | some f => Except.ok f.2
       | none => Except.error (.keyError k)) from rfl]
  cases List.find? (fun f => f.1 == k) fields <;> rfl

/-- Specification vocabulary for claim C1: a section of an option dict is
well-typed when, if present, its value is a string. -/
def section_ok_shape (fields : List (String × JValue)) (sec : String) : Bool :=
  match lookupField fields sec with
  | some (.str _) => true
  | some _ => false
  | none => true

/-- Specification vocabulary for claim C1: a section is missing or an
empty/whitespace-only string. -/
def section_bad (fields : List (String × JValue)) (sec : String) : Bool :=
  match lookupField fields sec with
  | none => true
  | some (.str s) => pyStrip s == ""
  | some _ => false

/-- An option value is an object whose present required sections are
strings. -/
def option_shape_ok : JValue → Bool
  | .obj fields => required_sections.all (section_ok_shape fields)
  | _ => false

/-- An option object has a required section missing or whitespace-only. -/
def option_bad : JValue → Bool
  | .obj fields => required_sections.any (section_bad fields)
  | _ => true

/-- Both options of the reply, when present, are well-typed option objects. -/
def recs_shape_ok (fields : List (String × JValue)) : Bool :=
  (["option1", "option2"]).all (fun o =>
    match lookupField fields o with
    | some v => option_shape_ok v
    | none => true)

/-- The reply object is missing an option, or an option has a bad section. -/
def recs_bad (fields : List (String × JValue)) : Bool :=
  (["option1", "option2"]).any (fun o =>
    match lookupField fields o with
    | none => true
    | some v => option_bad v)

theorem validate_option_obj_step (optName : String) (fields : List (String × JValue))
    (sec : String) (rest : List String) :
    validate_option optName (.obj fields) (sec :: rest) =
      (match lookupField fields sec with
       | none => .error (.keyError ("Missing " ++ sec ++ " in " ++ optName))
       | some (.str s) =>
         if pyStrip s == "" then
           .error (.valueError ("Empty content in " ++ optName ++ "." ++ sec))
         else validate_option optName (.obj fields) rest
       | some _ => .error (.attributeError "object has no attribute strip")) := by
  cases hlf : lookupField fields sec with
  | none => simp [validate_option, py_contains_obj, hlf]
  | some v =>
    cases v with
    | str s =>
      by_cases hse : (pyStrip s == "") = true <;>
        simp [validate_option, py_contains_obj, py_getitem_obj, hlf, py_strip_falsy, hse]
    | null => simp [validate_option, py_contains_obj, py_getitem_obj, hlf, py_strip_falsy]
    | bool b => simp [validate_option, py_contains_obj, py_getitem_obj, hlf, py_strip_falsy]
    | num n => simp [validate_option, py_contains_obj, py_getitem_obj, hlf, py_strip_falsy]
    | flt r => simp [validate_option, py_contains_obj, py_getitem_obj, hlf, py_strip_falsy]
    | arr xs => simp [validate_option, py_contains_obj, py_getitem_obj, hlf, py_strip_falsy]
    | obj fs => simp [validate_option, py_contains_obj, py_getitem_obj, hlf, py_strip_falsy]

theorem validate_option_all_good (optName : String) (fields : List (String × JValue)) :
    ∀ secs : List String,
      (∀ sec ∈ secs, ∃ s, lookupField fields sec = some (.str s) ∧ (pyStrip s == "") = false) →
      validate_option optName (.obj fields) secs = .ok () := by
  intro secs
  induction secs with
  | nil => intro _; rfl
  | cons sec rest ih =>
    intro hgood
    obtain ⟨s, hlf, hne⟩ := hgood sec (List.mem_cons_self sec rest)
    rw [validate_option_obj_step, hlf]
    simp only [hne, Bool.false_eq_true, if_false]
    exact ih (fun x hx => hgood x (List.mem_cons_of_mem sec hx))

theorem validate_option_some_bad (optName : String) (fields : List (String × JValue)) :
    ∀ secs : List String,
      (∀ sec ∈ secs, section_ok_shape fields sec = true) →
      secs.any (section_bad fields) = true →
      ∃ e, validate_option optName (.obj fields) secs = .error e ∧
        caught_by_recommendation_handler e = true := by
  intro secs
  induction secs with
  | nil => intro _ h; simp at h
  | cons sec rest ih =>
    intro hshape hany
    rw [validate_option_obj_step]
    cases hlf : lookupField fields sec with
    | none => exact ⟨_, rfl, rfl⟩
    | some v =>
      have hsh := hshape sec (List.mem_cons_self sec rest)
      cases v with
      | str s =>
        by_cases hse : (pyStrip s == "") = true
        · simp only [hse, if_true]
          exact ⟨_, rfl, rfl⟩
        · have hb : section_bad fields sec = false := by
            simp [section_bad, hlf, hse]
          have hrest : rest.any (section_bad fields) = true := by
            rcases List.any_eq_true.mp hany with ⟨x, hx, hpx⟩
            rcases List.mem_cons.mp hx with rfl | hx'
            · exact absurd hpx (by simp [hb])
            · exact List.any_eq_true.mpr ⟨x, hx', hpx⟩
          simp only [hse, Bool.false_eq_true, if_false]
          exact ih (fun x hx => hshape x (List.mem_cons_of_mem sec hx)) hrest
      | null => simp [section_ok_shape, hlf] at hsh
      | bool b => simp [section_ok_shape, hlf] at hsh
      | num n => simp [section_ok_shape, hlf] at hsh
      | flt r => simp [section_ok_shape, hlf] at hsh
      | arr xs => simp [section_ok_shape, hlf] at hsh
      | obj fs => simp [section_ok_shape, hlf] at hsh

theorem validate_recommendations_obj (fields : List (String × JValue)) :
    validate_recommendations (.obj fields) =
      (match lookupField fields "option1" with
       | none => .error (.keyError "Missing option1 in recommendations")
       | some opt1 =>
         match validate_option "option1" opt1 required_sections with
         | .error e => .error e
         | .ok _ =>
           match lookupField fields "option2" with
           | none => .error (.keyError "Missing option2 in recommendations")
           | some opt2 => validate_option "option2" opt2 required_sections) := by
  cases hl1 : lookupField fields "option1" with
  | none => simp [validate_recommendations, py_contains_obj, hl1]
  | some opt1 =>
    cases hv1 : validate_option "option1" opt1 required_sections with
    | error e =>
      simp [validate_recommendations, py_contains_obj, py_getitem_obj, hl1, hv1]
    | ok u =>
      cases u
      cases hl2 : lookupField fields "option2" with
      | none =>
        simp [validate_recommendations, py_contains_obj, py_getitem_obj, hl1, hv1, hl2]
      | some opt2 =>
        simp [validate_recommendations, py_contains_obj, py_getitem_obj, hl1, hv1, hl2]

theorem option_good_of_shape_not_bad (fields : List (String × JValue))
    (hshape : ∀ sec ∈ required_sections, section_ok_shape fields sec = true)
    (hnb : required_sections.any (section_bad fields) = false) :
    ∀ sec ∈ required_sections,
      ∃ s, lookupField fields sec = some (.str s) ∧ (pyStrip s == "") = false := by
  intro sec hsec
  have hsh := hshape sec hsec
  have hb : section_bad fields sec = false := by
    by_contra hcon
    have : section_bad fields sec = true := by
      cases h : section_bad fields sec
      · exact absurd h hcon
      · rfl
    have := List.any_eq_true.mpr ⟨sec, hsec, this⟩
    rw [hnb] at this
    exact Bool.noConfusion this
  cases hlf : lookupField fields sec with
  | none => rw [section_bad, hlf] at hb; exact Bool.noConfusion hb
  | some v =>
    cases v with
    | str s =>
      refine ⟨s, rfl, ?_⟩
      rw [section_bad, hlf] at hb
      exact hb
    | null => rw [section_ok_shape, hlf] at hsh; exact Bool.noConfusion hsh
    | bool b => rw [section_ok_shape, hlf] at hsh; exact Bool.noConfusion hsh
    | num n => rw [section_ok_shape, hlf] at hsh; exact Bool.noConfusion hsh
    | flt r => rw [section_ok_shape, hlf] at hsh; exact Bool.noConfusion hsh
    | arr xs => rw [section_ok_shape, hlf] at hsh; exact Bool.noConfusion hsh
    | obj fs => rw [section_ok_shape, hlf] at hsh; exact Bool.noConfusion hsh

/-- A reply object whose present options are well-typed but which is missing
an option or has a bad section makes the validation loop raise one of the
exceptions the handler catches. -/
theorem validate_recommendations_caught (fields : List (String × JValue))
    (hshape : recs_shape_ok fields = true) (hbad : recs_bad fields = true) :
    ∃ e, validate_recommendations (.obj fields) = .error e ∧
      caught_by_recommendation_handler e = true := by
  rw [validate_recommendations_obj]
  have hshape1 := hshape
  simp only [recs_shape_ok, List.all_cons, List.all_nil, Bool.and_true,
             Bool.and_eq_true] at hshape1
  obtain ⟨hsh1, hsh2⟩ := hshape1
  cases hl1 : lookupField fields "option1" with
  | none => exact ⟨_, rfl, rfl⟩
  | some v1 =>
    simp only [hl1] at hsh1
    cases v1 with
    | obj f1 =>
      have hshape_f1 : ∀ sec ∈ required_sections, section_ok_shape f1 sec = true := by
        simp only [option_shape_ok] at hsh1
        exact fun sec hsec => List.all_eq_true.mp hsh1 sec hsec
      by_cases hb1 : required_sections.any (section_bad f1) = true
      · obtain ⟨e, he, hc⟩ := validate_option_some_bad "option1" f1 required_sections
          hshape_f1 hb1
        refine ⟨e, ?_, hc⟩
        simp only [he]
      · have hb1f : required_sections.any (section_bad f1) = false := by
          cases h : required_sections.any (section_bad f1)
          · rfl
          · exact absurd h hb1
        have hok1 := validate_option_all_good "option1" f1 required_sections
          (option_good_of_shape_not_bad f1 hshape_f1 hb1f)
        simp only [hok1]
        have hbad2 : (match lookupField fields "option2" with
            | none => true
            | some v => option_bad v) = true := by
          simp only [recs_bad, List.any_cons, List.any_nil, Bool.or_false,
                     Bool.or_eq_true] at hbad
          rcases hbad with h1 | h2
          · simp only [hl1, option_bad] at h1
            rw [h1] at hb1f
            exact Bool.noConfusion hb1f
          · exact h2
        cases hl2 : lookupField fields "option2" with
        | none => exact ⟨_, rfl, rfl⟩
        | some v2 =>
          simp only [hl2] at hbad2 hsh2
          cases v2 with
          | obj f2 =>
            have hshape_f2 : ∀ sec ∈ required_sections, section_ok_shape f2 sec = true := by
              simp only [option_shape_ok] at hsh2
              exact fun sec hsec => List.all_eq_true.mp hsh2 sec hsec
            have hb2 : required_sections.any (section_bad f2) = true := by
              simp only [option_bad] at hbad2
              exact hbad2
            exact validate_option_some_bad "option2" f2 required_sections hshape_f2 hb2
          | null => exact Bool.noConfusion hsh2
          | bool b => exact Bool.noConfusion hsh2
          | num n => exact Bool.noConfusion hsh2
          | flt r => exact Bool.noConfusion hsh2
          | str s => exact Bool.noConfusion hsh2
          | arr xs => exact Bool.noConfusion hsh2
    | null => exact Bool.noConfusion hsh1
    | bool b => exact Bool.noConfusion hsh1
    | num n => exact Bool.noConfusion hsh1
    | flt r => exact Bool.noConfusion hsh1
    | str s => exact Bool.noConfusion hsh1
    | arr xs => exact Bool.noConfusion hsh1

/-- Specification vocabulary for claim C1: whether Python's `k in v`
membership test is defined for the value (objects, arrays and strings
support it; `None`, booleans and numbers raise `TypeError`). -/
def in_supported : JValue → Bool
  | .obj _ => true
  | .arr _ => true
  | .str _ => true
  | _ => false

/-- Specification vocabulary for claim C1: the outcome of Python's `k in v`
for the values that support it — key lookup in an object, `==`-membership in
an array, substring test in a string. -/
def member_test (v : JValue) (k : String) : Bool :=
  match v with
  | .obj fields => (lookupField fields k).isSome
  | .arr items => items.any (fun x => jbeq x (.str k))
  | .str s => strContainsSub s k
  | _ => false

/-- A reply value that supports the membership test but has no `option1`
member makes `'option1' not in recommendations` evaluate to `True` without
error, so the explicit `KeyError` at app.py:218 is raised — and caught. -/
theorem validate_recommendations_missing_option1 (v : JValue)
    (hsup : in_supported v = true) (hmem : member_test v "option1" = false) :
    validate_recommendations v =
      .error (.keyError "Missing option1 in recommendations") := by
  cases v with
  | obj fields =>
    rw [validate_recommendations_obj]
    cases hl : lookupField fields "option1" with
    | none => rfl
    | some v1 => simp [member_test, hl] at hmem
  | arr items =>
    simp only [member_test] at hmem
    simp [validate_recommendations, py_contains, hmem]
  | str s =>
    simp only [member_test] at hmem
    simp [validate_recommendations, py_contains, hmem]
  | null => exact Bool.noConfusion hsup
  | bool b => exact Bool.noConfusion hsup
  | num n => exact Bool.noConfusion hsup
  | flt r => exact Bool.noConfusion hsup

/-- A reply value that does not support the membership test (`None`, a
boolean or a number) makes `'option1' in recommendations` itself raise
`TypeError`, which the handler does not catch. -/
theorem validate_recommendations_not_iterable (v : JValue)
    (hsup : in_supported v = false) :
    validate_recommendations v = .error (.typeError "argument is not iterable") := by
  cases v with
  | null => rfl
  | bool b => rfl
  | num n => rfl
  | flt r => rfl
  | obj fields => exact Bool.noConfusion hsup
  | arr items => exact Bool.noConfusion hsup
  | str s => exact Bool.noConfusion hsup

/-- Claim C1, amended (corrected): if the recommendation reply is
syntactically invalid JSON; or parses to a value that supports Python's
membership test (a JSON object, array or string) in which `option1` is not
found — in particular any array (such as `[]`) or any object without an
`option1` member; or parses to a JSON object whose present
`option1`/`option2` values are objects with string-valued present sections
and which is missing `option1` or `option2` or has one of the four sections
missing or empty/whitespace-only — then `generate_final_recommendations`
returns the complete fixed fallback document (which passes the validation
loop itself, so all eight sections are present and non-empty — never a
partially-filled mixture) and the wizard still transitions to Done (step 3).
A reply parsing to a JSON value that does not support the membership test
(`null`, a boolean or a number) instead raises an uncaught `TypeError`: no
fallback is returned and the wizard stays at the synthesis step — the
counterexample's case. -/
theorem claim_C1_fallback_document (c : Completion) (info : ProjectInfo)
    (analysis reply : String)
    (hc0 : ∀ m, c 0 m = .ok analysis) (hc1 : ∀ m, c 1 m = .ok reply) :
    ((json_loads reply = none ∨
      (∃ v, json_loads reply = some v ∧ in_supported v = true ∧
        member_test v "option1" = false) ∨
      (∃ fields, json_loads reply = some (.obj fields) ∧
        recs_shape_ok fields = true ∧ recs_bad fields = true)) →
      (∀ sa so : AnswerMap,
        generate_final_recommendations c (some info) sa so =
          (.ok fallback_recommendations,
           [analysis_messages info sa so, recommendation_messages info sa so analysis])) ∧
      (∀ (s : SessionState) (qs : List String) (inputs : Nat → String),
        s.current_step = 2 → s.project_info = some info →
        s.solution_questions = .arr (qs.map .str) →
        (main_step c s (.submitAnswers inputs)).1.current_step = 3 ∧
        (main_step c s (.submitAnswers inputs)).1.recommendations =
          some fallback_recommendations ∧
        (main_step c s (.submitAnswers inputs)).2 = none) ∧
      validate_recommendations fallback_recommendations = .ok ()) ∧
    ((∃ v, json_loads reply = some v ∧ in_supported v = false) →
      (∀ sa so : AnswerMap,
        (generate_final_recommendations c (some info) sa so).1 =
          .error (.typeError "argument is not iterable")) ∧
      (∀ (s : SessionState) (qs : List String) (inputs : Nat → String),
        s.current_step = 2 → s.project_info = some info →
        s.solution_questions = .arr (qs.map .str) →
        (main_step c s (.submitAnswers inputs)).1.current_step = 2 ∧
        (main_step c s (.submitAnswers inputs)).1.recommendations =
          s.recommendations ∧
        (main_step c s (.submitAnswers inputs)).2 =
          some (.typeError "argument is not iterable"))) := by
  constructor
  · intro hbad
    have hattempt : ∃ e, recommendation_attempt reply = .error e ∧
        caught_by_recommendation_handler e = true := by
      rcases hbad with hnone | ⟨v, hsome, hsup, hmem⟩ | ⟨fields, hsome, hsh, hbd⟩
      · exact ⟨.jsonDecodeError, by simp [recommendation_attempt, hnone], rfl⟩
      · have hval := validate_recommendations_missing_option1 v hsup hmem
        exact ⟨.keyError "Missing option1 in recommendations",
               by simp [recommendation_attempt, hsome, hval], rfl⟩
      · obtain ⟨e, he, hcaught⟩ := validate_recommendations_caught fields hsh hbd
        exact ⟨e, by simp [recommendation_attempt, hsome, he], hcaught⟩
    obtain ⟨e, hatt, hcaught⟩ := hattempt
    have hgen : ∀ sa so : AnswerMap,
        generate_final_recommendations c (some info) sa so =
          (.ok fallback_recommendations,
           [analysis_messages info sa so, recommendation_messages info sa so analysis]) := by
      intro sa so
      simp [generate_final_recommendations, _get_completion, hc0, hc1, hatt, hcaught]
    refine ⟨hgen, ?_, rfl⟩
    intro s qs inputs h2 hpi hsq
    obtain ⟨am, ham⟩ := build_answers_str_ok qs inputs 0 []
    simp [main_step, h2, hsq, enumerateItems, ham, hpi, hgen]
  · rintro ⟨v, hsome, hsup⟩
    have hval := validate_recommendations_not_iterable v hsup
    have hatt : recommendation_attempt reply =
        .error (.typeError "argument is not iterable") := by
      simp [recommendation_attempt, hsome, hval]
    have hgen : ∀ sa so : AnswerMap,
        generate_final_recommendations c (some info) sa so =
          (.error (.typeError "argument is not iterable"),
           [analysis_messages info sa so, recommendation_messages info sa so analysis]) := by
      intro sa so
      simp [generate_final_recommendations, _get_completion, hc0, hc1, hatt,
            caught_by_recommendation_handler]
    refine ⟨fun sa so => by rw [hgen], ?_⟩
    intro s qs inputs h2 hpi hsq
    obtain ⟨am, ham⟩ := build_answers_str_ok qs inputs 0 []
    simp [main_step, h2, hsq, enumerateItems, ham, hpi, hgen]

/-- Witness for C1 (amended): at concrete inputs, the literal reply
`not json` and the empty-array reply `[]` each yield the full fallback
document, while the reply `null` raises the uncaught `TypeError`. -/
theorem claim_C1_witness :
    (generate_final_recommendations stub_nj2 (some ⟨"d", "m", []⟩) [] []).1 =
      .ok fallback_recommendations ∧
    (generate_final_recommendations stub_arr_rec (some ⟨"d", "m", []⟩) [] []).1 =
      .ok fallback_recommendations ∧
    (generate_final_recommendations stub_null_rec (some ⟨"d", "m", []⟩) [] []).1 =
      .error (.typeError "argument is not iterable") ∧
    validate_recommendations fallback_recommendations = .ok () :=
  ⟨by rw [((claim_C1_fallback_document stub_nj2 ⟨"d", "m", []⟩ "A" "not json"
      (fun _ => rfl) (fun _ => rfl)).1 (Or.inl rfl)).1 [] []],
   by rw [((claim_C1_fallback_document stub_arr_rec ⟨"d", "m", []⟩ "A" "[]"
      (fun _ => rfl) (fun _ => rfl)).1 (Or.inr (Or.inl ⟨.arr [], rfl, rfl, rfl⟩))).1 [] []],
   ((claim_C1_fallback_document stub_null_rec ⟨"d", "m", []⟩ "THE ANALYSIS" "null"
      (fun _ => rfl) (fun _ => rfl)).2 ⟨.null, rfl, rfl⟩).1 [] [],
   ((claim_C1_fallback_document stub_nj2 ⟨"d", "m", []⟩ "A" "not json"
      (fun _ => rfl) (fun _ => rfl)).1 (Or.inl rfl)).2.2⟩

/-- Counterexample for C1 as stated: the recommendation reply `null` is valid
JSON that has no `option1` member ("missing option1"), yet the code does not
return the fallback document: Python's `in` on `None` raises an uncaught
`TypeError`, the run aborts, no recommendation is stored, and the wizard
stays at step 2 instead of transitioning to Done. -/
theorem claim_C1_counterexample :
    json_loads "null" = some JValue.null ∧
    (generate_final_recommendations stub_null_rec (some ⟨"d", "m", []⟩) [] []).1 =
      .error (.typeError "argument is not iterable") ∧
    wiz_state2.current_step = 2 ∧
    (main_step stub_null_rec wiz_state2 (.submitAnswers fun _ => "")).1.current_step = 2 ∧
    (main_step stub_null_rec wiz_state2 (.submitAnswers fun _ => "")).1.recommendations =
      none ∧
    (main_step stub_null_rec wiz_state2 (.submitAnswers fun _ => "")).2 =
      some (.typeError "argument is not iterable") :=
  ⟨rfl, rfl, rfl, rfl, rfl, rfl⟩

/-- Witness for C10: all-empty answers at a concrete step-1 state. -/
theorem claim_C10_witness :
    main_step stub_nj { init_session_state with current_step := 1 }
      (.submitAnswers fun _ => "") =
      ({ init_session_state with
           current_step := 2,
           scope_answers := [],
           solution_questions := .arr (_get_fallback_solution_questions.map .str) }, none) :=
  (claim_C10_empty_answers_advance stub_nj "not json" (fun _ _ => rfl) rfl).1
    { init_session_state with current_step := 1 } [] rfl rfl

end ArchitectApp
